import Mathlib

/-!
Verification of the temporal gesture-smoothing and label-to-parameter mapping
pipeline of the MAS.S60 CAM2CV workshop repository.

The definitions below are shallow embeddings of the Python source in
`Workshop2_CAM2CV/cv-modules/gesture_detection.py` and
`Workshop2_CAM2CV/cv-modules/facial_expression_recognition.py`.
Python floats are modelled as rationals (`ℚ`), so every arithmetic identity
below is exact; Python dicts with insertion order are modelled as association
lists, and `collections.deque(maxlen=W)` as a list with eviction on push.
-/

/-- Embeds `clamp(value, min_value, max_value)` from gesture_detection.py
(line 168): `max(min_value, min(value, max_value))`. -/
def clamp (value min_value max_value : ℚ) : ℚ :=
  max min_value (min value max_value)

/-- Python float modulus `x % y` for positive `y`: the representative of
`x` modulo `y` lying in `[0, y)`, i.e. `x - y * ⌊x / y⌋`. -/
def qmod (x y : ℚ) : ℚ :=
  x - y * ⌊x / y⌋

/-- Embeds the `GestureResult` dataclass of gesture_detection.py
(lines 49-61): one per-frame observation / smoothed output. -/
structure GestureResult where
  gesture : String
  confidence : ℚ
  hue : ℚ
  launch_power : ℚ
  spark_density : ℚ
  twist : ℚ
  center : ℚ × ℚ
  handedness : String
  spread : ℚ
  pinch_strength : ℚ
  style : String
deriving DecidableEq, Repr

/-- Embeds the mutable state of `GestureSmoother` (gesture_detection.py,
lines 92-100): window capacity, debounce thresholds, EMA coefficient,
the sliding label history (oldest first, as a `deque(maxlen=window)`),
the committed label, and the previous EMA output. -/
structure SmootherState where
  window : ℕ
  min_switch : ℕ
  min_conf : ℚ
  alpha : ℚ
  history : List String
  current_label : Option String
  smoothed : Option GestureResult
deriving DecidableEq, Repr

/-- Embeds `GestureSmoother.__init__` (lines 92-100):
`self.window = max(3, int(window))`, `self.min_switch = max(2, int(min_switch_count))`,
empty history, no committed label, no smoothed output yet. -/
def GestureSmoother.init (window min_switch_count : ℤ) (min_confidence ema : ℚ) : SmootherState :=
  { window := (max 3 window).toNat
    min_switch := (max 2 min_switch_count).toNat
    min_conf := min_confidence
    alpha := ema
    history := []
    current_label := none
    smoothed := none }

/-- Appending to a `deque(maxlen=W)`: add on the right, evict from the left
when the capacity is exceeded. -/
def pushWindow (W : ℕ) (h : List String) (x : String) : List String :=
  let h2 := h ++ [x]
  if W < h2.length then h2.drop (h2.length - W) else h2

/-- One step of the Python tally loop `counts[g] = counts.get(g, 0) + 1`:
increment the entry for `g` in the association list, preserving insertion
order, appending a fresh entry when absent. -/
def bump (acc : List (String × ℕ)) (g : String) : List (String × ℕ) :=
  match acc with
  | [] => [(g, 1)]
  | (k, c) :: rest => if k = g then (k, c + 1) :: rest else (k, c) :: bump rest g

/-- Embeds the tally loop of `GestureSmoother.update` (lines 118-120):
`counts = {}` followed by `for g in self.history: counts[g] = counts.get(g, 0) + 1`.
The association list mirrors the dict's insertion order (order of first
occurrence in the history, oldest first). -/
def tally (h : List String) : List (String × ℕ) :=
  h.foldl bump []

/-- Embeds `counts.get(g, 0)` on the association list. -/
def countGet (t : List (String × ℕ)) (g : String) : ℕ :=
  match t with
  | [] => 0
  | (k, c) :: rest => if k = g then c else countGet rest g

/-- Embeds Python `max(items, key=lambda kv: kv[1])` over a non-empty list
`p :: rest`: left fold keeping the current best, replacing it only on a
strictly larger value, so the FIRST maximal item wins ties. -/
def maxPairFirst {α : Type} [LinearOrder α] (p : String × α) (rest : List (String × α)) :
    String × α :=
  rest.foldl (fun best q => if best.2 < q.2 then q else best) p

/-- Embeds `candidate = max(counts.items(), key=lambda kv: kv[1])[0] if counts else next_label`
(line 121). -/
def voteCandidate (fallback : String) (history : List String) : String :=
  match tally history with
  | [] => fallback
  | p :: rest => (maxPairFirst p rest).1

/-- Embeds the vote-admission step of `GestureSmoother.update` (lines 107-109):
the label joins the sliding history only if the frame is confident or idle. -/
def admitHistory (s : SmootherState) (new : GestureResult) : List String :=
  if s.min_conf ≤ new.confidence ∨ new.gesture = "idle" then
    pushWindow s.window s.history new.gesture
  else
    s.history

/-- Embeds the label-decision step of `GestureSmoother.update` (lines 111-129),
run on the post-admission history: commit the incoming label when none is
committed yet; keep the committed label when the incoming label agrees;
otherwise switch to the history-majority candidate only when its count
reaches `min_switch` and the incoming frame is confident. -/
def decideLabel (s : SmootherState) (new : GestureResult) (history : List String) : String :=
  match s.current_label with
  | none => new.gesture
  | some cur =>
    if new.gesture = cur then new.gesture
    else
      let t := tally history
      let candidate := voteCandidate new.gesture history
      if candidate = cur then cur
      else if s.min_switch ≤ countGet t candidate ∧ s.min_conf ≤ new.confidence then candidate
      else cur

/-- Embeds `GestureSmoother._ema` (lines 102-104):
`prev * (1 - a) + new * a` with `a = self.alpha`. -/
def ema (a prev new : ℚ) : ℚ :=
  prev * (1 - a) + new * a

/-- Embeds `GestureSmoother.update` (lines 106-165): admit the vote, decide
the label, then either seed the smoothed tuple from the first observation or
apply the per-field EMA; label and style are copied, never averaged.
Returns the updated state together with the returned `GestureResult`. -/
def GestureSmoother.update (s : SmootherState) (new : GestureResult) :
    SmootherState × GestureResult :=
  let history := admitHistory s new
  let next_label := decideLabel s new history
  let out : GestureResult :=
    match s.smoothed with
    | none =>
      { gesture := next_label
        confidence := new.confidence
        hue := new.hue
        launch_power := new.launch_power
        spark_density := new.spark_density
        twist := new.twist
        center := new.center
        handedness := new.handedness
        spread := new.spread
        pinch_strength := new.pinch_strength
        style := new.style }
    | some sm =>
      { gesture := next_label
        confidence := ema s.alpha sm.confidence new.confidence
        hue := ema s.alpha sm.hue new.hue
        launch_power := ema s.alpha sm.launch_power new.launch_power
        spark_density := ema s.alpha sm.spark_density new.spark_density
        twist := ema s.alpha sm.twist new.twist
        center := (ema s.alpha sm.center.1 new.center.1, ema s.alpha sm.center.2 new.center.2)
        handedness := new.handedness
        spread := ema s.alpha sm.spread new.spread
        pinch_strength := ema s.alpha sm.pinch_strength new.pinch_strength
        style := new.style }
  ({ s with history := history, current_label := some next_label, smoothed := some out }, out)

/-- Feed a sequence of observations through the smoother, frame by frame. -/
def runUpdates (s : SmootherState) (obs : List GestureResult) : SmootherState :=
  obs.foldl (fun st o => (GestureSmoother.update st o).1) s

/-- A bare observation carrying only a label and a confidence, with neutral
values in the numeric fields (sufficient for the label-debounce scenarios). -/
def mkObs (g : String) (c : ℚ) : GestureResult :=
  { gesture := g
    confidence := c
    hue := 0
    launch_power := 0
    spark_density := 0
    twist := 0
    center := (0, 0)
    handedness := "unknown"
    spread := 0
    pinch_strength := 0
    style := "spark" }

/-- Look up a key in an association list, returning a default when absent
(Python `dict.get(k, d)`; with the key known present, plain `dict[k]`). -/
def lookupD {α : Type} (t : List (String × α)) (k : String) (d : α) : α :=
  match t with
  | [] => d
  | (k2, v) :: rest => if k2 = k then v else lookupD rest k d

/-- Membership of a key in an association list (Python `k in dict`). -/
def memKeys {α : Type} (t : List (String × α)) (k : String) : Bool :=
  match t with
  | [] => false
  | (k2, _) :: rest => k2 = k || memKeys rest k

/-- Embeds `GestureClassifier._style_map` (gesture_detection.py, lines 183-205). -/
def styleMap : List (String × String) :=
  [("open_palm", "nebula"), ("stop", "nebula"), ("five", "nebula"), ("four", "aurora"),
   ("three", "galaxy"), ("three2", "galaxy"), ("fist", "meteor"), ("peace", "galaxy"),
   ("victory", "galaxy"), ("two_up_inverted", "galaxy"), ("pinch", "stardust"),
   ("ok", "stardust"), ("thumbs_up", "aurora"), ("thumbs_down", "meteor"),
   ("point", "comet"), ("pistol", "comet"), ("rock", "meteor"), ("shaka", "aurora"),
   ("call", "aurora"), ("mixed", "spark"), ("idle", "embers")]

/-- The classifier's finite label set: the keys of `_style_map`. -/
def LabelSet : List String :=
  styleMap.map Prod.fst

/-- Embeds `GestureClassifier.idle` (gesture_detection.py, lines 207-220):
the designated no-subject observation. -/
def GestureClassifier.idle : GestureResult :=
  { gesture := "idle"
    confidence := 0.2
    hue := 210.0
    launch_power := 0.35
    spark_density := 0.2
    twist := 0.0
    center := (0.5, 0.6)
    handedness := "unknown"
    spread := 0.1
    pinch_strength := 0.0
    style := lookupD styleMap "idle" "embers" }

/-- Embeds the no-hand branch of `run_detection` (gesture_detection.py,
lines 568-575): once `now - last_presence` exceeds the 0.75 s presence
timeout the raw observation fed to the smoother is `classifier.idle()`;
within the timeout it is the idle observation at confidence 0.05. -/
def selectIdleObservation (now last_presence : ℚ) : GestureResult :=
  if 0.75 < now - last_presence then GestureClassifier.idle
  else { GestureClassifier.idle with confidence := 0.05 }

/-- Embeds `GestureClassifier._resolve_hue` (gesture_detection.py,
lines 379-392). -/
def GestureClassifier.resolveHue (gesture : String) (center : ℚ × ℚ) : ℚ :=
  let base := center.1 * 360.0
  if gesture = "fist" then 20.0 + center.2 * 10.0
  else if gesture = "peace" then 300.0 + (1.0 - center.2) * 40.0
  else if gesture = "thumbs_up" then 90.0 + center.2 * 60.0
  else if gesture = "pinch" then 210.0 + center.1 * 120.0
  else if gesture = "point" then 45.0 + center.1 * 80.0
  else base

/-- The per-frame features the gesture decision chain of
`GestureClassifier.classify` (gesture_detection.py, lines 236-316) consumes:
the five extended-finger states, the normalized pinch strength, tip spread and
twist, the clamped palm center, and the three residual geometric tests that
the chain uses directly (the rock fallback distance test of lines 287-291, the
thumb-above test of `_is_thumb_up` lines 375-376, and the thumb-below test of
line 315), taken as boolean inputs since they depend only on raw landmarks. -/
structure HandFeatures where
  thumb : Bool
  index : Bool
  middle : Bool
  ring : Bool
  pinky : Bool
  pinch_strength : ℚ
  tip_spread : ℚ
  twist : ℚ
  center : ℚ × ℚ
  rock_fallback_geom : Bool
  thumb_above_geom : Bool
  thumb_below_geom : Bool
deriving DecidableEq, Repr

/-- Embeds the decision chain of `GestureClassifier.classify`
(gesture_detection.py, lines 253-316): the ordered rule list assigning a
gesture label and its confidence; the final fall-through keeps the defaults
`("mixed", 0.6)`. -/
def gestureDecision (f : HandFeatures) : String × ℚ :=
  let finger_count : ℕ :=
    (if f.thumb then 1 else 0) + (if f.index then 1 else 0) + (if f.middle then 1 else 0) +
      (if f.ring then 1 else 0) + (if f.pinky then 1 else 0)
  if 0.72 < f.pinch_strength then
    if 2 ≤ (if f.middle then 1 else 0) + (if f.ring then 1 else 0) +
        (if f.pinky then (1 : ℕ) else 0) then
      ("ok", 0.93)
    else ("pinch", 0.92)
  else if f.index ∧ f.middle ∧ f.ring ∧ f.pinky ∧ ¬f.thumb then
    ("four", clamp (0.72 + f.tip_spread * 0.4) 0.0 1.0)
  else if f.index ∧ f.middle ∧ f.ring ∧ f.pinky ∧ f.thumb then
    ("five", clamp (0.72 + f.tip_spread * 0.4) 0.0 1.0)
  else if 4 ≤ finger_count ∧ f.pinch_strength < 0.5 then
    ("open_palm", clamp (0.7 + f.tip_spread * 0.4) 0.0 1.0)
  else if finger_count = 0 ∧ f.pinch_strength < 0.3 then
    ("fist", 0.95)
  else if f.index ∧ f.middle ∧ ¬f.ring ∧ ¬f.pinky ∧ 0.25 < |f.twist| then
    ("victory", 0.86)
  else if f.index ∧ f.middle ∧ ¬f.ring ∧ ¬f.pinky then
    ("peace", 0.85)
  else if (f.index ∧ ¬f.middle ∧ ¬f.ring ∧ f.pinky) ∨
      ((¬f.middle ∧ ¬f.ring) ∧ f.rock_fallback_geom) then
    ("rock", 0.86)
  else if f.thumb ∧ ¬f.index ∧ ¬f.middle ∧ ¬f.ring ∧ f.pinky ∧ 0.25 < |f.twist| then
    ("call", 0.86)
  else if f.thumb ∧ ¬f.index ∧ ¬f.middle ∧ ¬f.ring ∧ f.pinky then
    ("shaka", 0.86)
  else if f.thumb ∧ f.index ∧ ¬f.middle ∧ ¬f.ring ∧ ¬f.pinky then
    ("pistol", 0.84)
  else if f.index ∧ f.middle ∧ f.ring ∧ ¬f.pinky ∧ ¬f.thumb then
    ("three", 0.82)
  else if f.index ∧ f.middle ∧ ¬f.ring ∧ ¬f.pinky ∧ f.thumb then
    ("two_up_inverted", 0.82)
  else if f.middle ∧ f.ring ∧ f.pinky ∧ ¬f.index ∧ ¬f.thumb then
    ("three2", 0.8)
  else if finger_count = 1 ∧ f.index then
    ("point", 0.78)
  else if f.thumb ∧ ¬f.index ∧ ¬f.middle ∧ ¬f.ring ∧ ¬f.pinky ∧ f.thumb_above_geom then
    ("thumbs_up", 0.82)
  else if f.thumb ∧ f.thumb_below_geom ∧ ¬f.index ∧ ¬f.middle ∧ ¬f.ring ∧ ¬f.pinky then
    ("thumbs_down", 0.82)
  else ("mixed", 0.6)

/-- The per-frame normalized facial features that the scoring table of
`classify_expression` (facial_expression_recognition.py, lines 94-140)
consumes: each a landmark-distance ratio against the face width, plus the
mouth-corner angle. -/
structure FaceFeatures where
  mouth_width : ℚ
  mouth_height : ℚ
  lip_gap : ℚ
  eye_open : ℚ
  brow_gap : ℚ
  mouth_angle : ℚ
deriving DecidableEq, Repr

/-- The "surprised" entry of the scoring table of `classify_expression`
(facial_expression_recognition.py, lines 117-118). -/
def scoreSurprised (r : FaceFeatures) : ℚ :=
  if 0.22 < r.mouth_height ∧ 0.11 < r.eye_open then
    min 1.0 ((r.mouth_height - 0.2) * 8 + (r.eye_open - 0.1) * 8)
  else 0.0

/-- The "happy" entry of the scoring table (lines 120-124). -/
def scoreHappy (r : FaceFeatures) : ℚ :=
  if 0.42 < r.mouth_width ∧ 0.10 < r.mouth_height ∧ -0.05 < r.mouth_angle then
    min 1.0 ((r.mouth_width - 0.4) * 4 + max 0.0 r.mouth_angle * 2 +
      max 0.0 (r.mouth_height - 0.1) * 4)
  else 0.0

/-- The "angry" entry of the scoring table (lines 126-129). -/
def scoreAngry (r : FaceFeatures) : ℚ :=
  if r.brow_gap < 0.08 ∧ r.eye_open < 0.09 then
    min 1.0 ((0.1 - r.brow_gap) * 10 + (0.1 - r.eye_open) * 8)
  else 0.0

/-- The "sad" entry of the scoring table (lines 131-134). -/
def scoreSad (r : FaceFeatures) : ℚ :=
  if r.mouth_angle < -0.08 ∧ r.mouth_height < 0.12 then
    min 1.0 ((-r.mouth_angle - 0.05) * 4 + max 0.0 (0.12 - r.mouth_height) * 4)
  else 0.0

/-- The "neutral" entry after the penalty step (lines 114, 136-137): its
initial 0.5 reduced by 0.6 times the strongest score in the dict (the dict
still holds neutral's initial 0.5 when the maximum is taken). -/
def scoreNeutral (r : FaceFeatures) : ℚ :=
  max 0.0 (0.5 -
    max (max (max (max (scoreSurprised r) (scoreHappy r)) (scoreAngry r)) (scoreSad r)) 0.5
      * 0.6)

/-- Embeds `classify_expression` (facial_expression_recognition.py, lines
109-140): score every expression simultaneously, penalize neutral by 0.6
times the strongest score, then take the first maximal entry in the dict's
insertion order (surprised, happy, angry, sad, neutral), capping confidence
at 1 — Python `max` over the items keeps the first maximal entry. -/
def classifyExpression (r : FaceFeatures) : String × ℚ :=
  let best := maxPairFirst ("surprised", scoreSurprised r)
    [("happy", scoreHappy r), ("angry", scoreAngry r), ("sad", scoreSad r),
     ("neutral", scoreNeutral r)]
  (best.1, min 1.0 best.2)

/-- Embeds `ExpressionMapper.style_map` (facial_expression_recognition.py,
lines 152-159). -/
def expStyleMap : List (String × String) :=
  [("happy", "nebula"), ("surprised", "galaxy"), ("angry", "meteor"),
   ("sad", "stardust"), ("neutral", "embers"), ("unknown", "embers")]

/-- Embeds `ExpressionMapper.base_hue` (facial_expression_recognition.py,
lines 160-167). -/
def expBaseHue : List (String × ℚ) :=
  [("happy", 50.0), ("surprised", 200.0), ("angry", 0.0),
   ("sad", 220.0), ("neutral", 180.0), ("unknown", 180.0)]

/-- Embeds `ExpressionMapper.map` (facial_expression_recognition.py,
lines 169-191): fall back to "neutral" for labels outside the style map,
derive hue from the base-hue table and the horizontal center, launch power
from the vertical center, pick the per-label (density, twist) pair through
the if/elif chain, modulate density by confidence, and look up the style.
Returns `(hue, launch_power, density, twist, style)`. -/
def ExpressionMapper.map (label : String) (center : ℚ × ℚ) (confidence : ℚ) :
    ℚ × ℚ × ℚ × ℚ × String :=
  let label := if memKeys expStyleMap label then label else "neutral"
  let hue := qmod (lookupD expBaseHue label 0 + center.1 * 120.0) 360.0
  let launch_power := clamp (1.0 - center.2) 0.15 0.95
  let dt : ℚ × ℚ :=
    if label = "happy" then (1.4, 0.15)
    else if label = "surprised" then (1.6, 0.25)
    else if label = "angry" then (1.2, -0.2)
    else if label = "sad" then (0.6, -0.1)
    else (0.8, 0.0)
  let density := clamp (dt.1 * (0.7 + 0.6 * confidence)) 0.2 1.9
  let style := lookupD expStyleMap label "embers"
  (hue, launch_power, density, dt.2, style)

/-- The spec's lookup-table reading of the mapper's per-label base density
(§4.3): the fixed `(density, twist)` pair, keyed by resolved label, with the
neutral entry for everything else. -/
def specBaseDensity (label : String) : ℚ :=
  match label with
  | "happy" => 1.4
  | "surprised" => 1.6
  | "angry" => 1.2
  | "sad" => 0.6
  | _ => 0.8

/-- The spec's lookup-table reading of the mapper's per-label base twist
(§4.3 companion of `specBaseDensity`). -/
def specBaseTwist (label : String) : ℚ :=
  match label with
  | "happy" => 0.15
  | "surprised" => 0.25
  | "angry" => -0.2
  | "sad" => -0.1
  | _ => 0.0

/-- The spec's label-resolution step for the mapper: a label outside the
table falls back to "neutral". -/
def resolveExprLabel (label : String) : String :=
  if memKeys expStyleMap label then label else "neutral"

/-! ## Helper lemmas -/

theorem countGet_bump (acc : List (String × ℕ)) (g k : String) :
    countGet (bump acc g) k = countGet acc k + (if k = g then 1 else 0) := by
  induction acc with
  | nil =>
    by_cases h : k = g
    · subst h
      simp [bump, countGet]
    · have h2 : ¬ g = k := fun hgk => h hgk.symm
      simp [bump, countGet, h, h2]
  | cons p rest ih =>
    obtain ⟨k2, c⟩ := p
    by_cases h2 : k2 = g
    · subst h2
      by_cases h : k2 = k
      · subst h
        simp [bump, countGet]
      · have h3 : ¬ k = k2 := fun hk => h hk.symm
        simp [bump, countGet, h, h3]
    · by_cases h : k2 = k
      · subst h
        simp [bump, countGet, h2]
      · simp [bump, countGet, h2, h, ih]

theorem countGet_foldl_bump (h : List String) (acc : List (String × ℕ)) (k : String) :
    countGet (h.foldl bump acc) k = countGet acc k + h.count k := by
  induction h generalizing acc with
  | nil => simp
  | cons g rest ih =>
    simp only [List.foldl_cons, ih, countGet_bump, List.count_cons]
    by_cases hk : k = g
    · subst hk
      simp only [if_pos rfl, beq_self_eq_true, if_pos]
      omega
    · have hne : ¬ g = k := fun hgk => hk hgk.symm
      simp [hk, hne]

theorem countGet_tally (h : List String) (k : String) :
    countGet (tally h) k = h.count k := by
  simpa [tally, countGet] using countGet_foldl_bump h [] k

theorem maxPairFirst_mem {α : Type} [LinearOrder α] (p : String × α)
    (rest : List (String × α)) : maxPairFirst p rest = p ∨ maxPairFirst p rest ∈ rest := by
  induction rest generalizing p with
  | nil => simp [maxPairFirst]
  | cons q rest ih =>
    simp only [maxPairFirst, List.foldl_cons] at *
    rcases ih (if p.2 < q.2 then q else p) with hcase | hcase
    · rw [hcase]
      by_cases hlt : p.2 < q.2 <;> simp [hlt]
    · right
      right
      exact hcase

theorem mem_bump (a : List (String × ℕ)) (g k : String) (c : ℕ)
    (hin : (k, c) ∈ bump a g) : (∃ c2, (k, c2) ∈ a) ∨ k = g := by
  induction a generalizing c with
  | nil =>
    right
    have : k = g ∧ c = 1 := by simpa [bump] using hin
    exact this.1
  | cons p0 rest0 ih0 =>
    obtain ⟨k0, cc0⟩ := p0
    by_cases h0 : k0 = g
    · subst h0
      rcases (by simpa [bump] using hin :
          k = k0 ∧ c = cc0 + 1 ∨ (k, c) ∈ rest0) with heq | hr
      · exact Or.inl ⟨cc0, by simp [heq.1]⟩
      · exact Or.inl ⟨c, by simp [hr]⟩
    · rcases (by simpa [bump, h0] using hin :
          k = k0 ∧ c = cc0 ∨ (k, c) ∈ bump rest0 g) with heq | hr
      · exact Or.inl ⟨cc0, by simp [heq.1]⟩
      · rcases ih0 c hr with ⟨c2, hc2⟩ | hkg
        · exact Or.inl ⟨c2, by simp [hc2]⟩
        · exact Or.inr hkg

theorem mem_foldl_bump (l : List String) (acc : List (String × ℕ)) (k : String) (c : ℕ)
    (hin : (k, c) ∈ l.foldl bump acc) : (∃ c0, (k, c0) ∈ acc) ∨ k ∈ l := by
  induction l generalizing acc c with
  | nil => exact Or.inl ⟨c, by simpa using hin⟩
  | cons g rest ih =>
    rcases ih (bump acc g) c (by simpa using hin) with ⟨c0, hc0⟩ | hrest
    · rcases mem_bump acc g k c0 hc0 with ⟨c2, hc2⟩ | hkg
      · exact Or.inl ⟨c2, hc2⟩
      · exact Or.inr (by simp [hkg])
    · exact Or.inr (by simp [hrest])

theorem tally_keys_sub (h : List String) (k : String) (c : ℕ)
    (hmem : (k, c) ∈ tally h) : k ∈ h := by
  rcases mem_foldl_bump h [] k c (by simpa [tally] using hmem) with ⟨c0, hc0⟩ | hin
  · simp at hc0
  · exact hin

theorem voteCandidate_mem (fallback : String) (h : List String) :
    voteCandidate fallback h = fallback ∨ voteCandidate fallback h ∈ h := by
  cases htal : tally h with
  | nil => simp [voteCandidate, htal]
  | cons p rest =>
    right
    have hval : voteCandidate fallback h = (maxPairFirst p rest).1 := by
      simp [voteCandidate, htal]
    have hq : maxPairFirst p rest ∈ p :: rest := by
      rcases maxPairFirst_mem p rest with h1 | h1
      · simp [h1]
      · simp [h1]
    rw [hval]
    exact tally_keys_sub h (maxPairFirst p rest).1 (maxPairFirst p rest).2
      (by rw [htal]; simpa using hq)

theorem pushWindow_length (W : ℕ) (h : List String) (x : String)
    (hlen : h.length ≤ W) : (pushWindow W h x).length ≤ W := by
  unfold pushWindow
  by_cases hc : W < (h ++ [x]).length <;> simp_all
  omega

theorem mem_pushWindow (W : ℕ) (h : List String) (x g : String)
    (hmem : g ∈ pushWindow W h x) : g ∈ h ∨ g = x := by
  unfold pushWindow at hmem
  by_cases hc : W < (h ++ [x]).length
  · simp only [hc, if_pos] at hmem
    have := List.drop_subset ((h ++ [x]).length - W) (h ++ [x]) hmem
    simpa using this
  · simp only [hc, if_neg, not_false_iff] at hmem
    simpa using hmem

theorem count_drop_le (l : List String) (n : ℕ) (g : String) :
    l.count g ≤ (l.drop n).count g + n := by
  conv_lhs => rw [← List.take_append_drop n l]
  rw [List.count_append]
  have h1 : (l.take n).count g ≤ (l.take n).length := List.count_le_length g (l.take n)
  have h2 : (l.take n).length ≤ n := by simp
  omega

theorem count_pushWindow_ge (W : ℕ) (h : List String) (g : String)
    (hlen : h.length ≤ W) : h.count g ≤ (pushWindow W h g).count g := by
  unfold pushWindow
  by_cases hc : W < (h ++ [g]).length
  · simp only [hc, if_pos]
    have hdrop := count_drop_le (h ++ [g]) ((h ++ [g]).length - W) g
    have hcnt : (h ++ [g]).count g = h.count g + 1 := by
      rw [List.count_append]
      simp
    have hlen2 : (h ++ [g]).length = h.length + 1 := by simp
    rw [hcnt] at hdrop
    omega
  · simp only [hc, if_neg, not_false_iff]
    rw [List.count_append]
    simp

theorem qmod_nonneg (x y : ℚ) (hy : 0 < y) : 0 ≤ qmod x y := by
  unfold qmod
  have h1 : (⌊x / y⌋ : ℚ) ≤ x / y := Int.floor_le (x / y)
  have h2 : y * (x / y) = x := mul_div_cancel₀ x (ne_of_gt hy)
  nlinarith [mul_le_mul_of_nonneg_left h1 (le_of_lt hy)]

theorem qmod_lt (x y : ℚ) (hy : 0 < y) : qmod x y < y := by
  unfold qmod
  have h1 : x / y < (⌊x / y⌋ : ℚ) + 1 := Int.lt_floor_add_one (x / y)
  have h2 : y * (x / y) = x := mul_div_cancel₀ x (ne_of_gt hy)
  nlinarith [mul_lt_mul_of_pos_left h1 hy]

theorem clamp_le (v mn mx : ℚ) (hbound : mn ≤ mx) :
    mn ≤ clamp v mn mx ∧ clamp v mn mx ≤ mx := by
  unfold clamp
  constructor
  · exact le_max_left mn (min v mx)
  · exact max_le hbound (min_le_right v mx)

/-! ## Claims -/

/-- C10: for every argument passed to the `GestureSmoother` constructor, the
constructed instance's window capacity is at least 3 and its minimum-switch
count is at least 2; in particular constructing with `window = 1` yields a
smoother whose window is 3, so the debounce machinery can never be configured
away entirely. -/
theorem C10_constructor_floors (window min_switch_count : ℤ) (min_confidence a : ℚ) :
    3 ≤ (GestureSmoother.init window min_switch_count min_confidence a).window ∧
    2 ≤ (GestureSmoother.init window min_switch_count min_confidence a).min_switch ∧
    (GestureSmoother.init 1 4 min_confidence a).window = 3 := by
  refine ⟨?_, ?_, ?_⟩ <;> simp [GestureSmoother.init]

/-- C8: once no subject has been detected for longer than the 0.75 s presence
timeout, the detection loop substitutes the designated idle observation —
confidence exactly 0.2, label "idle", hue 210, launch power 0.35, spark
density 0.2, twist 0, center (0.5, 0.6) — instead of holding the last real
observation. -/
theorem C8_presence_timeout (now last_presence : ℚ)
    (htimeout : 0.75 < now - last_presence) :
    selectIdleObservation now last_presence = GestureClassifier.idle ∧
    GestureClassifier.idle.gesture = "idle" ∧
    GestureClassifier.idle.confidence = 0.2 ∧
    GestureClassifier.idle.hue = 210.0 ∧
    GestureClassifier.idle.launch_power = 0.35 ∧
    GestureClassifier.idle.spark_density = 0.2 ∧
    GestureClassifier.idle.twist = 0.0 ∧
    GestureClassifier.idle.center = (0.5, 0.6) := by
  refine ⟨?_, rfl, rfl, rfl, rfl, rfl, rfl, rfl⟩
  simp [selectIdleObservation, htimeout]

/-- C8 witness: at `now = 0.75 + 1` and `last_presence = 0` the timeout test
holds and the idle observation with its fixed defaults is substituted. -/
theorem C8_presence_timeout_witness :
    selectIdleObservation (0.75 + 1) 0 = GestureClassifier.idle ∧
    GestureClassifier.idle.gesture = "idle" ∧
    GestureClassifier.idle.confidence = 0.2 ∧
    GestureClassifier.idle.hue = 210.0 ∧
    GestureClassifier.idle.launch_power = 0.35 ∧
    GestureClassifier.idle.spark_density = 0.2 ∧
    GestureClassifier.idle.twist = 0.0 ∧
    GestureClassifier.idle.center = (0.5, 0.6) :=
  C8_presence_timeout (0.75 + 1) 0 (by simp)

/-- C2 counterexample: `map("fist", (0.5, 0.5), 1.0)` does NOT produce the
density `clamp(1.2 * (0.7 + 0.6 * 1.0), 0.2, 1.9) = 1.56` the claim derives
from a supposed per-label fist base density of 1.2. -/
theorem C2_counterexample :
    (ExpressionMapper.map "fist" (0.5, 0.5) 1.0).2.2.1 ≠
      clamp (1.2 * (0.7 + 0.6 * 1.0)) 0.2 1.9 := by
  have hmap : (ExpressionMapper.map "fist" (0.5, 0.5) 1.0).2.2.1 =
      clamp (0.8 * (0.7 + 0.6 * 1.0)) 0.2 1.9 := by
    simp [ExpressionMapper.map, memKeys, expStyleMap]
  rw [hmap]
  norm_num [clamp]

/-- C2 (amended): "fist" is not an expression label, so
`ExpressionMapper.map` resolves it to the neutral table entry with base
density 0.8, and `map("fist", (0.5, 0.5), 1.0)` yields
`density = clamp(0.8 * (0.7 + 0.6 * 1.0), 0.2, 1.9) = 1.04`. -/
theorem C2_fist_density_neutral_fallback :
    (ExpressionMapper.map "fist" (0.5, 0.5) 1.0).2.2.1 =
      clamp (0.8 * (0.7 + 0.6 * 1.0)) 0.2 1.9 ∧
    (ExpressionMapper.map "fist" (0.5, 0.5) 1.0).2.2.1 = 1.04 := by
  have hmap : (ExpressionMapper.map "fist" (0.5, 0.5) 1.0).2.2.1 =
      clamp (0.8 * (0.7 + 0.6 * 1.0)) 0.2 1.9 := by
    simp [ExpressionMapper.map, memKeys, expStyleMap]
  refine ⟨hmap, ?_⟩
  rw [hmap]
  norm_num [clamp]

/-- C7: the incoming label is appended to the history buffer exactly when the
observation's confidence reaches the minimum-confidence threshold or the
label is the "idle" sentinel; a non-idle observation below the threshold
leaves the history unchanged. -/
theorem C7_vote_admission (s : SmootherState) (new : GestureResult) :
    ((s.min_conf ≤ new.confidence ∨ new.gesture = "idle") →
      (GestureSmoother.update s new).1.history =
        pushWindow s.window s.history new.gesture) ∧
    (¬ (s.min_conf ≤ new.confidence ∨ new.gesture = "idle") →
      (GestureSmoother.update s new).1.history = s.history) := by
  constructor <;> intro hcond <;>
    simp [GestureSmoother.update, admitHistory, hcond]

/-- C7 witness: an "idle" observation (always admitted) is appended to the
fresh smoother's history. -/
theorem C7_vote_admission_witness :
    (GestureSmoother.update (GestureSmoother.init 8 4 0.65 0.25)
        (mkObs "idle" 0.2)).1.history =
      pushWindow (GestureSmoother.init 8 4 0.65 0.25).window
        (GestureSmoother.init 8 4 0.65 0.25).history (mkObs "idle" 0.2).gesture :=
  (C7_vote_admission (GestureSmoother.init 8 4 0.65 0.25) (mkObs "idle" 0.2)).1
    (Or.inr rfl)

/-- C4: on every non-first call, each numeric field of the smoother's output
(confidence, hue, launch_power, spark_density, twist, center.x, center.y,
spread, pinch_strength) equals `previous * (1 - 0.25) + incoming * 0.25`
with α = 0.25 applied independently per field; on the very first call the
output is seeded from the incoming observation; and the label and style
fields are never averaged — the label comes from the debounce decision and
the style from the incoming observation. -/
theorem C4_ema_per_field (s : SmootherState) (new : GestureResult)
    (halpha : s.alpha = 0.25) :
    (∀ sm, s.smoothed = some sm →
      (GestureSmoother.update s new).2.confidence =
          sm.confidence * (1 - 0.25) + new.confidence * 0.25 ∧
      (GestureSmoother.update s new).2.hue = sm.hue * (1 - 0.25) + new.hue * 0.25 ∧
      (GestureSmoother.update s new).2.launch_power =
          sm.launch_power * (1 - 0.25) + new.launch_power * 0.25 ∧
      (GestureSmoother.update s new).2.spark_density =
          sm.spark_density * (1 - 0.25) + new.spark_density * 0.25 ∧
      (GestureSmoother.update s new).2.twist = sm.twist * (1 - 0.25) + new.twist * 0.25 ∧
      (GestureSmoother.update s new).2.center.1 =
          sm.center.1 * (1 - 0.25) + new.center.1 * 0.25 ∧
      (GestureSmoother.update s new).2.center.2 =
          sm.center.2 * (1 - 0.25) + new.center.2 * 0.25 ∧
      (GestureSmoother.update s new).2.spread = sm.spread * (1 - 0.25) + new.spread * 0.25 ∧
      (GestureSmoother.update s new).2.pinch_strength =
          sm.pinch_strength * (1 - 0.25) + new.pinch_strength * 0.25) ∧
    (s.smoothed = none →
      (GestureSmoother.update s new).2 =
        { new with gesture := decideLabel s new (admitHistory s new) }) ∧
    (GestureSmoother.update s new).2.gesture = decideLabel s new (admitHistory s new) ∧
    (GestureSmoother.update s new).2.style = new.style := by
  refine ⟨?_, ?_, ?_, ?_⟩
  · intro sm hsm
    simp [GestureSmoother.update, ema, halpha, hsm]
  · intro hsm
    simp [GestureSmoother.update, hsm]
  · cases hsm : s.smoothed <;> simp [GestureSmoother.update, hsm]
  · cases hsm : s.smoothed <;> simp [GestureSmoother.update, hsm]

/-- A concrete smoother state that already holds a smoothed tuple, used to
instantiate the EMA claim. -/
def c4State : SmootherState :=
  { window := 8
    min_switch := 4
    min_conf := 0.65
    alpha := 0.25
    history := ["fist"]
    current_label := some "fist"
    smoothed := some (mkObs "fist" 0.5) }

/-- C4 witness: at a concrete state whose previous smoothed confidence is
that of `mkObs "fist" 0.5`, the next output's confidence is the EMA of the
previous value and the incoming one. -/
theorem C4_ema_per_field_witness :
    (GestureSmoother.update c4State (mkObs "fist" 0.9)).2.confidence =
      (mkObs "fist" 0.5).confidence * (1 - 0.25) + (mkObs "fist" 0.9).confidence * 0.25 :=
  ((C4_ema_per_field c4State (mkObs "fist" 0.9) rfl).1 (mkObs "fist" 0.5) rfl).1

/-- C6: for every label, center and confidence, `ExpressionMapper.map`
returns `hue = (base_hue[label] + center.x * 120) mod 360`,
`launch_power = clamp(1 - center.y, 0.15, 0.95)`,
`density = clamp(base_density[label] * (0.7 + 0.6 * confidence), 0.2, 1.9)`,
the twist of the fixed per-label table, and the table's style — where any
label outside the table first resolves to the "neutral" entry, never an
error. -/
theorem C6_mapper_formulas (label : String) (x y confidence : ℚ)
    (_hx0 : 0 ≤ x) (_hx1 : x ≤ 1) (_hy0 : 0 ≤ y) (_hy1 : y ≤ 1) :
    ExpressionMapper.map label (x, y) confidence =
      (qmod (lookupD expBaseHue (resolveExprLabel label) 0 + x * 120.0) 360.0,
       clamp (1.0 - y) 0.15 0.95,
       clamp (specBaseDensity (resolveExprLabel label) * (0.7 + 0.6 * confidence)) 0.2 1.9,
       specBaseTwist (resolveExprLabel label),
       lookupD expStyleMap (resolveExprLabel label) "embers") := by
  by_cases h1 : label = "happy"
  · subst h1
    simp [ExpressionMapper.map, resolveExprLabel, memKeys, expStyleMap, expBaseHue,
      lookupD, specBaseDensity, specBaseTwist]
  by_cases h2 : label = "surprised"
  · subst h2
    simp [ExpressionMapper.map, resolveExprLabel, memKeys, expStyleMap, expBaseHue,
      lookupD, specBaseDensity, specBaseTwist]
  by_cases h3 : label = "angry"
  · subst h3
    simp [ExpressionMapper.map, resolveExprLabel, memKeys, expStyleMap, expBaseHue,
      lookupD, specBaseDensity, specBaseTwist]
  by_cases h4 : label = "sad"
  · subst h4
    simp [ExpressionMapper.map, resolveExprLabel, memKeys, expStyleMap, expBaseHue,
      lookupD, specBaseDensity, specBaseTwist]
  by_cases h5 : label = "neutral"
  · subst h5
    simp [ExpressionMapper.map, resolveExprLabel, memKeys, expStyleMap, expBaseHue,
      lookupD, specBaseDensity, specBaseTwist]
  by_cases h6 : label = "unknown"
  · subst h6
    simp [ExpressionMapper.map, resolveExprLabel, memKeys, expStyleMap, expBaseHue,
      lookupD, specBaseDensity, specBaseTwist]
  · have h1s : ¬ "happy" = label := fun h => h1 h.symm
    have h2s : ¬ "surprised" = label := fun h => h2 h.symm
    have h3s : ¬ "angry" = label := fun h => h3 h.symm
    have h4s : ¬ "sad" = label := fun h => h4 h.symm
    have h5s : ¬ "neutral" = label := fun h => h5 h.symm
    have h6s : ¬ "unknown" = label := fun h => h6 h.symm
    simp [ExpressionMapper.map, resolveExprLabel, memKeys, expStyleMap, expBaseHue,
      lookupD, specBaseDensity, specBaseTwist, h1s, h2s, h3s, h4s, h5s, h6s]

/-- C6 witness: the formulas instantiated at the unknown label "mixed" and
center (0, 0): the mapper resolves it to the neutral table entry. -/
theorem C6_mapper_formulas_witness :
    ExpressionMapper.map "mixed" (0, 0) 1.0 =
      (qmod (lookupD expBaseHue (resolveExprLabel "mixed") 0 + 0 * 120.0) 360.0,
       clamp (1.0 - 0) 0.15 0.95,
       clamp (specBaseDensity (resolveExprLabel "mixed") * (0.7 + 0.6 * 1.0)) 0.2 1.9,
       specBaseTwist (resolveExprLabel "mixed"),
       lookupD expStyleMap (resolveExprLabel "mixed") "embers") :=
  C6_mapper_formulas "mixed" 0 0 1.0 (le_refl 0) zero_le_one (le_refl 0) zero_le_one

/-- The spec scenario state for the debounce claim, reached from a fresh
smoother by four confident "fist" frames and one confident "open_palm"
frame: history `["fist", "fist", "fist", "fist", "open_palm"]`, committed
label "fist". -/
def c1Scenario : SmootherState :=
  runUpdates (GestureSmoother.init 8 4 0.65 0.25)
    [mkObs "fist" 0.95, mkObs "fist" 0.95, mkObs "fist" 0.95, mkObs "fist" 0.95,
     mkObs "open_palm" 0.9]

/-- C1 (amended): an observation of a different label whose occurrence count
in the (post-admission) history buffer stays below `min_switch_count` never
makes that label the committed one — though the committed label may still
move to the history-majority candidate; in the spec's concrete scenario
(history `[fist, fist, fist, fist, open_palm]`, W = 8, min_switch = 4,
current "fist") an incoming "open_palm" at confidence 0.9 leaves the
committed label at "fist". -/
theorem C1_blip_debounce (s : SmootherState) (new : GestureResult) (cur : String)
    (hcur : s.current_label = some cur)
    (hne : new.gesture ≠ cur)
    (hlen : s.history.length ≤ s.window)
    (hcount : (pushWindow s.window s.history new.gesture).count new.gesture < s.min_switch) :
    (GestureSmoother.update s new).1.current_label ≠ some new.gesture ∧
    (c1Scenario.history = ["fist", "fist", "fist", "fist", "open_palm"] ∧
      c1Scenario.current_label = some "fist" ∧
      (GestureSmoother.update c1Scenario (mkObs "open_palm" 0.9)).1.current_label =
        some "fist") := by
  constructor
  · have hlab : (GestureSmoother.update s new).1.current_label
        = some (decideLabel s new (admitHistory s new)) := rfl
    rw [hlab]
    intro hsome
    have hdec : decideLabel s new (admitHistory s new) = new.gesture :=
      Option.some.inj hsome
    have hcount2 : (admitHistory s new).count new.gesture < s.min_switch := by
      unfold admitHistory
      by_cases hadm : s.min_conf ≤ new.confidence ∨ new.gesture = "idle"
      · simpa [hadm] using hcount
      · simp only [hadm, if_neg, not_false_iff]
        exact lt_of_le_of_lt (count_pushWindow_ge s.window s.history new.gesture hlen) hcount
    unfold decideLabel at hdec
    rw [hcur] at hdec
    simp only [if_neg hne] at hdec
    split_ifs at hdec with hcand hcond
    · exact hne hdec.symm
    · have hge : s.min_switch ≤ countGet (tally (admitHistory s new)) new.gesture := by
        rw [← hdec]
        exact hcond.1
      rw [countGet_tally] at hge
      omega
    · exact hne hdec.symm
  · refine ⟨?_, ?_, ?_⟩ <;>
      norm_num [c1Scenario, runUpdates, GestureSmoother.init, GestureSmoother.update,
        admitHistory, decideLabel, voteCandidate, tally, bump, countGet, maxPairFirst,
        pushWindow, ema, mkObs] <;>
      decide

/-- A state with the spec scenario's configuration written out literally,
used to instantiate the debounce claim. -/
def c1WitnessState : SmootherState :=
  { window := 8
    min_switch := 4
    min_conf := 0.65
    alpha := 0.25
    history := ["fist", "fist", "fist", "fist", "open_palm"]
    current_label := some "fist"
    smoothed := none }

/-- C1 witness: the debounce theorem applied at the literal scenario state
and the incoming "open_palm" observation at confidence 0.9. -/
theorem C1_blip_debounce_witness :
    ((GestureSmoother.update c1WitnessState (mkObs "open_palm" 0.9)).1.current_label ≠
        some (mkObs "open_palm" 0.9).gesture) ∧
    (c1Scenario.history = ["fist", "fist", "fist", "fist", "open_palm"] ∧
      c1Scenario.current_label = some "fist" ∧
      (GestureSmoother.update c1Scenario (mkObs "open_palm" 0.9)).1.current_label =
        some "fist") :=
  C1_blip_debounce c1WitnessState (mkObs "open_palm" 0.9) "fist" rfl (by decide)
    (by decide) (by decide)

/-- The state reached from a fresh smoother by one confident "fist" frame and
four low-confidence "idle" frames (idle is always admitted to the history):
history `["fist", "idle", "idle", "idle", "idle"]`, committed label "fist". -/
def c1CexState : SmootherState :=
  runUpdates (GestureSmoother.init 8 4 0.65 0.25)
    [mkObs "fist" 0.95, mkObs "idle" 0.2, mkObs "idle" 0.2, mkObs "idle" 0.2,
     mkObs "idle" 0.2]

/-- C1 counterexample: from the reachable state with history
`["fist", "idle", "idle", "idle", "idle"]` and committed label "fist", a
single "open_palm" observation at confidence 0.9 — whose count in the
history buffer is 1 < min_switch_count = 4 — DOES change `current_label`
(to the history-majority label "idle"), refuting the claim that such a blip
never changes it. -/
theorem C1_counterexample :
    c1CexState.current_label = some "fist" ∧
    (pushWindow c1CexState.window c1CexState.history "open_palm").count "open_palm" < 4 ∧
    (GestureSmoother.update c1CexState (mkObs "open_palm" 0.9)).1.current_label ≠
      some "fist" ∧
    (GestureSmoother.update c1CexState (mkObs "open_palm" 0.9)).1.current_label =
      some "idle" := by
  refine ⟨?_, ?_, ?_, ?_⟩ <;>
    norm_num [c1CexState, runUpdates, GestureSmoother.init, GestureSmoother.update,
      admitHistory, decideLabel, voteCandidate, tally, bump, countGet, maxPairFirst,
      pushWindow, ema, mkObs] <;>
    decide

/-- Step evaluation: the fresh default smoother as a literal state. -/
theorem evalStep0 : GestureSmoother.init 8 4 0.65 0.25 =
    { window := 8, min_switch := 4, min_conf := 13/20, alpha := 1/4, history := [], current_label := none, smoothed := none } := by
  norm_num [GestureSmoother.init]
  all_goals decide

/-- Step evaluation: smoother state after frame 1 of the C3 runs. -/
theorem evalStep1 :
    (GestureSmoother.update { window := 8, min_switch := 4, min_conf := 13/20, alpha := 1/4, history := [], current_label := none, smoothed := none } (mkObs "fist" 0.95)).1 =
    { window := 8, min_switch := 4, min_conf := 13/20, alpha := 1/4, history := ["fist"], current_label := some "fist", smoothed := some { gesture := "fist", confidence := 19/20, hue := 0, launch_power := 0, spark_density := 0, twist := 0, center := (0, 0), handedness := "unknown", spread := 0, pinch_strength := 0, style := "spark" } } := by
  norm_num [GestureSmoother.update, admitHistory, decideLabel, voteCandidate,
    tally, bump, countGet, maxPairFirst, pushWindow, ema, mkObs]

/-- Step evaluation: smoother state after frame 2 of the C3 runs. -/
theorem evalStep2 :
    (GestureSmoother.update { window := 8, min_switch := 4, min_conf := 13/20, alpha := 1/4, history := ["fist"], current_label := some "fist", smoothed := some { gesture := "fist", confidence := 19/20, hue := 0, launch_power := 0, spark_density := 0, twist := 0, center := (0, 0), handedness := "unknown", spread := 0, pinch_strength := 0, style := "spark" } } (mkObs "fist" 0.95)).1 =
    { window := 8, min_switch := 4, min_conf := 13/20, alpha := 1/4, history := ["fist", "fist"], current_label := some "fist", smoothed := some { gesture := "fist", confidence := 19/20, hue := 0, launch_power := 0, spark_density := 0, twist := 0, center := (0, 0), handedness := "unknown", spread := 0, pinch_strength := 0, style := "spark" } } := by
  norm_num [GestureSmoother.update, admitHistory, decideLabel, voteCandidate,
    tally, bump, countGet, maxPairFirst, pushWindow, ema, mkObs]

/-- Step evaluation: smoother state after frame 3 of the C3 runs. -/
theorem evalStep3 :
    (GestureSmoother.update { window := 8, min_switch := 4, min_conf := 13/20, alpha := 1/4, history := ["fist", "fist"], current_label := some "fist", smoothed := some { gesture := "fist", confidence := 19/20, hue := 0, launch_power := 0, spark_density := 0, twist := 0, center := (0, 0), handedness := "unknown", spread := 0, pinch_strength := 0, style := "spark" } } (mkObs "fist" 0.95)).1 =
    { window := 8, min_switch := 4, min_conf := 13/20, alpha := 1/4, history := ["fist", "fist", "fist"], current_label := some "fist", smoothed := some { gesture := "fist", confidence := 19/20, hue := 0, launch_power := 0, spark_density := 0, twist := 0, center := (0, 0), handedness := "unknown", spread := 0, pinch_strength := 0, style := "spark" } } := by
  norm_num [GestureSmoother.update, admitHistory, decideLabel, voteCandidate,
    tally, bump, countGet, maxPairFirst, pushWindow, ema, mkObs]

/-- Step evaluation: smoother state after frame 4 of the C3 runs. -/
theorem evalStep4 :
    (GestureSmoother.update { window := 8, min_switch := 4, min_conf := 13/20, alpha := 1/4, history := ["fist", "fist", "fist"], current_label := some "fist", smoothed := some { gesture := "fist", confidence := 19/20, hue := 0, launch_power := 0, spark_density := 0, twist := 0, center := (0, 0), handedness := "unknown", spread := 0, pinch_strength := 0, style := "spark" } } (mkObs "fist" 0.95)).1 =
    { window := 8, min_switch := 4, min_conf := 13/20, alpha := 1/4, history := ["fist", "fist", "fist", "fist"], current_label := some "fist", smoothed := some { gesture := "fist", confidence := 19/20, hue := 0, launch_power := 0, spark_density := 0, twist := 0, center := (0, 0), handedness := "unknown", spread := 0, pinch_strength := 0, style := "spark" } } := by
  norm_num [GestureSmoother.update, admitHistory, decideLabel, voteCandidate,
    tally, bump, countGet, maxPairFirst, pushWindow, ema, mkObs]

/-- Step evaluation: smoother state after frame 5 of the C3 runs. -/
theorem evalStep5 :
    (GestureSmoother.update { window := 8, min_switch := 4, min_conf := 13/20, alpha := 1/4, history := ["fist", "fist", "fist", "fist"], current_label := some "fist", smoothed := some { gesture := "fist", confidence := 19/20, hue := 0, launch_power := 0, spark_density := 0, twist := 0, center := (0, 0), handedness := "unknown", spread := 0, pinch_strength := 0, style := "spark" } } (mkObs "fist" 0.95)).1 =
    { window := 8, min_switch := 4, min_conf := 13/20, alpha := 1/4, history := ["fist", "fist", "fist", "fist", "fist"], current_label := some "fist", smoothed := some { gesture := "fist", confidence := 19/20, hue := 0, launch_power := 0, spark_density := 0, twist := 0, center := (0, 0), handedness := "unknown", spread := 0, pinch_strength := 0, style := "spark" } } := by
  norm_num [GestureSmoother.update, admitHistory, decideLabel, voteCandidate,
    tally, bump, countGet, maxPairFirst, pushWindow, ema, mkObs]

/-- Step evaluation: smoother state after frame 6 of the C3 runs. -/
theorem evalStep6 :
    (GestureSmoother.update { window := 8, min_switch := 4, min_conf := 13/20, alpha := 1/4, history := ["fist", "fist", "fist", "fist", "fist"], current_label := some "fist", smoothed := some { gesture := "fist", confidence := 19/20, hue := 0, launch_power := 0, spark_density := 0, twist := 0, center := (0, 0), handedness := "unknown", spread := 0, pinch_strength := 0, style := "spark" } } (mkObs "fist" 0.95)).1 =
    { window := 8, min_switch := 4, min_conf := 13/20, alpha := 1/4, history := ["fist", "fist", "fist", "fist", "fist", "fist"], current_label := some "fist", smoothed := some { gesture := "fist", confidence := 19/20, hue := 0, launch_power := 0, spark_density := 0, twist := 0, center := (0, 0), handedness := "unknown", spread := 0, pinch_strength := 0, style := "spark" } } := by
  norm_num [GestureSmoother.update, admitHistory, decideLabel, voteCandidate,
    tally, bump, countGet, maxPairFirst, pushWindow, ema, mkObs]

/-- Step evaluation: smoother state after frame 7 of the C3 runs. -/
theorem evalStep7 :
    (GestureSmoother.update { window := 8, min_switch := 4, min_conf := 13/20, alpha := 1/4, history := ["fist", "fist", "fist", "fist", "fist", "fist"], current_label := some "fist", smoothed := some { gesture := "fist", confidence := 19/20, hue := 0, launch_power := 0, spark_density := 0, twist := 0, center := (0, 0), handedness := "unknown", spread := 0, pinch_strength := 0, style := "spark" } } (mkObs "fist" 0.95)).1 =
    { window := 8, min_switch := 4, min_conf := 13/20, alpha := 1/4, history := ["fist", "fist", "fist", "fist", "fist", "fist", "fist"], current_label := some "fist", smoothed := some { gesture := "fist", confidence := 19/20, hue := 0, launch_power := 0, spark_density := 0, twist := 0, center := (0, 0), handedness := "unknown", spread := 0, pinch_strength := 0, style := "spark" } } := by
  norm_num [GestureSmoother.update, admitHistory, decideLabel, voteCandidate,
    tally, bump, countGet, maxPairFirst, pushWindow, ema, mkObs]

/-- Step evaluation: smoother state after frame 8 of the C3 runs. -/
theorem evalStep8 :
    (GestureSmoother.update { window := 8, min_switch := 4, min_conf := 13/20, alpha := 1/4, history := ["fist", "fist", "fist", "fist", "fist", "fist", "fist"], current_label := some "fist", smoothed := some { gesture := "fist", confidence := 19/20, hue := 0, launch_power := 0, spark_density := 0, twist := 0, center := (0, 0), handedness := "unknown", spread := 0, pinch_strength := 0, style := "spark" } } (mkObs "fist" 0.95)).1 =
    { window := 8, min_switch := 4, min_conf := 13/20, alpha := 1/4, history := ["fist", "fist", "fist", "fist", "fist", "fist", "fist", "fist"], current_label := some "fist", smoothed := some { gesture := "fist", confidence := 19/20, hue := 0, launch_power := 0, spark_density := 0, twist := 0, center := (0, 0), handedness := "unknown", spread := 0, pinch_strength := 0, style := "spark" } } := by
  norm_num [GestureSmoother.update, admitHistory, decideLabel, voteCandidate,
    tally, bump, countGet, maxPairFirst, pushWindow, ema, mkObs]

/-- Step evaluation: smoother state after frame 9 of the C3 runs. -/
theorem evalStep9 :
    (GestureSmoother.update { window := 8, min_switch := 4, min_conf := 13/20, alpha := 1/4, history := ["fist", "fist", "fist", "fist", "fist", "fist", "fist", "fist"], current_label := some "fist", smoothed := some { gesture := "fist", confidence := 19/20, hue := 0, launch_power := 0, spark_density := 0, twist := 0, center := (0, 0), handedness := "unknown", spread := 0, pinch_strength := 0, style := "spark" } } (mkObs "open_palm" 0.9)).1 =
    { window := 8, min_switch := 4, min_conf := 13/20, alpha := 1/4, history := ["fist", "fist", "fist", "fist", "fist", "fist", "fist", "open_palm"], current_label := some "fist", smoothed := some { gesture := "fist", confidence := 15/16, hue := 0, launch_power := 0, spark_density := 0, twist := 0, center := (0, 0), handedness := "unknown", spread := 0, pinch_strength := 0, style := "spark" } } := by
  norm_num [GestureSmoother.update, admitHistory, decideLabel, voteCandidate,
    tally, bump, countGet, maxPairFirst, pushWindow, ema, mkObs]
  all_goals decide

/-- Step evaluation: smoother state after frame 10 of the C3 runs. -/
theorem evalStep10 :
    (GestureSmoother.update { window := 8, min_switch := 4, min_conf := 13/20, alpha := 1/4, history := ["fist", "fist", "fist", "fist", "fist", "fist", "fist", "open_palm"], current_label := some "fist", smoothed := some { gesture := "fist", confidence := 15/16, hue := 0, launch_power := 0, spark_density := 0, twist := 0, center := (0, 0), handedness := "unknown", spread := 0, pinch_strength := 0, style := "spark" } } (mkObs "open_palm" 0.9)).1 =
    { window := 8, min_switch := 4, min_conf := 13/20, alpha := 1/4, history := ["fist", "fist", "fist", "fist", "fist", "fist", "open_palm", "open_palm"], current_label := some "fist", smoothed := some { gesture := "fist", confidence := 297/320, hue := 0, launch_power := 0, spark_density := 0, twist := 0, center := (0, 0), handedness := "unknown", spread := 0, pinch_strength := 0, style := "spark" } } := by
  norm_num [GestureSmoother.update, admitHistory, decideLabel, voteCandidate,
    tally, bump, countGet, maxPairFirst, pushWindow, ema, mkObs]
  all_goals decide

/-- Step evaluation: smoother state after frame 11 of the C3 runs. -/
theorem evalStep11 :
    (GestureSmoother.update { window := 8, min_switch := 4, min_conf := 13/20, alpha := 1/4, history := ["fist", "fist", "fist", "fist", "fist", "fist", "open_palm", "open_palm"], current_label := some "fist", smoothed := some { gesture := "fist", confidence := 297/320, hue := 0, launch_power := 0, spark_density := 0, twist := 0, center := (0, 0), handedness := "unknown", spread := 0, pinch_strength := 0, style := "spark" } } (mkObs "open_palm" 0.9)).1 =
    { window := 8, min_switch := 4, min_conf := 13/20, alpha := 1/4, history := ["fist", "fist", "fist", "fist", "fist", "open_palm", "open_palm", "open_palm"], current_label := some "fist", smoothed := some { gesture := "fist", confidence := 1179/1280, hue := 0, launch_power := 0, spark_density := 0, twist := 0, center := (0, 0), handedness := "unknown", spread := 0, pinch_strength := 0, style := "spark" } } := by
  norm_num [GestureSmoother.update, admitHistory, decideLabel, voteCandidate,
    tally, bump, countGet, maxPairFirst, pushWindow, ema, mkObs]
  all_goals decide

/-- Step evaluation: smoother state after frame 12 of the C3 runs. -/
theorem evalStep12 :
    (GestureSmoother.update { window := 8, min_switch := 4, min_conf := 13/20, alpha := 1/4, history := ["fist", "fist", "fist", "fist", "fist", "open_palm", "open_palm", "open_palm"], current_label := some "fist", smoothed := some { gesture := "fist", confidence := 1179/1280, hue := 0, launch_power := 0, spark_density := 0, twist := 0, center := (0, 0), handedness := "unknown", spread := 0, pinch_strength := 0, style := "spark" } } (mkObs "open_palm" 0.9)).1 =
    { window := 8, min_switch := 4, min_conf := 13/20, alpha := 1/4, history := ["fist", "fist", "fist", "fist", "open_palm", "open_palm", "open_palm", "open_palm"], current_label := some "fist", smoothed := some { gesture := "fist", confidence := 4689/5120, hue := 0, launch_power := 0, spark_density := 0, twist := 0, center := (0, 0), handedness := "unknown", spread := 0, pinch_strength := 0, style := "spark" } } := by
  norm_num [GestureSmoother.update, admitHistory, decideLabel, voteCandidate,
    tally, bump, countGet, maxPairFirst, pushWindow, ema, mkObs]
  all_goals decide

/-- Step evaluation: smoother state after frame 13 of the C3 runs. -/
theorem evalStep13 :
    (GestureSmoother.update { window := 8, min_switch := 4, min_conf := 13/20, alpha := 1/4, history := ["fist", "fist", "fist", "fist", "open_palm", "open_palm", "open_palm", "open_palm"], current_label := some "fist", smoothed := some { gesture := "fist", confidence := 4689/5120, hue := 0, launch_power := 0, spark_density := 0, twist := 0, center := (0, 0), handedness := "unknown", spread := 0, pinch_strength := 0, style := "spark" } } (mkObs "open_palm" 0.9)).1 =
    { window := 8, min_switch := 4, min_conf := 13/20, alpha := 1/4, history := ["fist", "fist", "fist", "open_palm", "open_palm", "open_palm", "open_palm", "open_palm"], current_label := some "open_palm", smoothed := some { gesture := "open_palm", confidence := 3735/4096, hue := 0, launch_power := 0, spark_density := 0, twist := 0, center := (0, 0), handedness := "unknown", spread := 0, pinch_strength := 0, style := "spark" } } := by
  norm_num [GestureSmoother.update, admitHistory, decideLabel, voteCandidate,
    tally, bump, countGet, maxPairFirst, pushWindow, ema, mkObs]
  all_goals decide

/-- The state reached from a fresh smoother by eight confident "fist" frames
followed by five confident "open_palm" frames: the history then holds five
"open_palm" entries against three "fist" entries. -/
def c3FiveState : SmootherState :=
  runUpdates (GestureSmoother.init 8 4 0.65 0.25)
    [mkObs "fist" 0.95, mkObs "fist" 0.95, mkObs "fist" 0.95, mkObs "fist" 0.95,
     mkObs "fist" 0.95, mkObs "fist" 0.95, mkObs "fist" 0.95, mkObs "fist" 0.95,
     mkObs "open_palm" 0.9, mkObs "open_palm" 0.9, mkObs "open_palm" 0.9,
     mkObs "open_palm" 0.9, mkObs "open_palm" 0.9]

/-- The 13-frame run of `c3FiveState` evaluated to a literal state, by
chaining the per-frame step evaluations. -/
theorem c3FiveState_eval :
    c3FiveState =
    { window := 8, min_switch := 4, min_conf := 13/20, alpha := 1/4, history := ["fist", "fist", "fist", "open_palm", "open_palm", "open_palm", "open_palm", "open_palm"], current_label := some "open_palm", smoothed := some { gesture := "open_palm", confidence := 3735/4096, hue := 0, launch_power := 0, spark_density := 0, twist := 0, center := (0, 0), handedness := "unknown", spread := 0, pinch_strength := 0, style := "spark" } } := by
  simp only [c3FiveState, runUpdates, List.foldl_cons, List.foldl_nil]
  rw [evalStep0, evalStep1, evalStep2, evalStep3, evalStep4, evalStep5, evalStep6,
    evalStep7, evalStep8, evalStep9, evalStep10, evalStep11, evalStep12, evalStep13]

/-- C3 (amended): a confident observation of a new label flips the committed
label once the new label has become the history-majority candidate with at
least `min_switch_count` occurrences — consecutive confident observations
therefore flip the label only once they outnumber every other label in the
window, which from a window saturated with eight "fist" entries takes five
consecutive "open_palm" observations, not four; once the history holds five
"open_palm" entries (count ≥ 4) and the incoming confidence is
0.9 ≥ 0.65, the committed label is "open_palm". -/
theorem C3_majority_switch (s : SmootherState) (new : GestureResult) (cur : String)
    (hcur : s.current_label = some cur)
    (hne : new.gesture ≠ cur)
    (hcand : voteCandidate new.gesture (admitHistory s new) = new.gesture)
    (hcount : s.min_switch ≤ countGet (tally (admitHistory s new)) new.gesture)
    (hconf : s.min_conf ≤ new.confidence) :
    (GestureSmoother.update s new).1.current_label = some new.gesture ∧
    (c3FiveState.history.count "open_palm" = 5 ∧
      c3FiveState.current_label = some "open_palm") := by
  refine ⟨?_, ?_, ?_⟩
  · have hlab : (GestureSmoother.update s new).1.current_label
        = some (decideLabel s new (admitHistory s new)) := rfl
    rw [hlab]
    unfold decideLabel
    rw [hcur]
    simp only [if_neg hne, hcand]
    rw [if_pos ⟨hcount, hconf⟩]
  · rw [c3FiveState_eval]
    decide
  · rw [c3FiveState_eval]

/-- A concrete state in which "open_palm" is already the history majority
with three entries against one "fist", used to instantiate the switch
theorem: the next admitted "open_palm" brings its count to four. -/
def c3WitnessState : SmootherState :=
  { window := 8
    min_switch := 4
    min_conf := 0.65
    alpha := 0.25
    history := ["fist", "open_palm", "open_palm", "open_palm"]
    current_label := some "fist"
    smoothed := none }

/-- C3 witness: the switch theorem applied at the concrete majority state
with an incoming "open_palm" observation at exactly the threshold
confidence 0.65. -/
theorem C3_majority_switch_witness :
    (GestureSmoother.update c3WitnessState (mkObs "open_palm" 0.65)).1.current_label =
        some (mkObs "open_palm" 0.65).gesture ∧
    (c3FiveState.history.count "open_palm" = 5 ∧
      c3FiveState.current_label = some "open_palm") :=
  C3_majority_switch c3WitnessState (mkObs "open_palm" 0.65) "fist" rfl (by decide)
    (by simp [admitHistory, voteCandidate, tally, bump, maxPairFirst, pushWindow,
      c3WitnessState, mkObs])
    (by simp [admitHistory, voteCandidate, tally, bump, maxPairFirst, countGet,
      pushWindow, c3WitnessState, mkObs])
    (le_refl _)

/-- C3 counterexample: from a smoother whose window of 8 is saturated with
"fist", feeding exactly `min_switch_count = 4` consecutive confident
"open_palm" observations does NOT flip the committed label (the vote ties
4-4 and the tie breaks toward the incumbent "fist"): the claim that
`min_switch_count` consecutive confident observations always flip the label
fails at this input. -/
theorem C3_counterexample :
    (runUpdates (GestureSmoother.init 8 4 0.65 0.25)
      [mkObs "fist" 0.95, mkObs "fist" 0.95, mkObs "fist" 0.95, mkObs "fist" 0.95,
       mkObs "fist" 0.95, mkObs "fist" 0.95, mkObs "fist" 0.95, mkObs "fist" 0.95,
       mkObs "open_palm" 0.9, mkObs "open_palm" 0.9, mkObs "open_palm" 0.9,
       mkObs "open_palm" 0.9]).current_label = some "fist" ∧
    (runUpdates (GestureSmoother.init 8 4 0.65 0.25)
      [mkObs "fist" 0.95, mkObs "fist" 0.95, mkObs "fist" 0.95, mkObs "fist" 0.95,
       mkObs "fist" 0.95, mkObs "fist" 0.95, mkObs "fist" 0.95, mkObs "fist" 0.95,
       mkObs "open_palm" 0.9, mkObs "open_palm" 0.9, mkObs "open_palm" 0.9,
       mkObs "open_palm" 0.9]).current_label ≠ some "open_palm" := by
  have hchain :
      (runUpdates (GestureSmoother.init 8 4 0.65 0.25)
        [mkObs "fist" 0.95, mkObs "fist" 0.95, mkObs "fist" 0.95, mkObs "fist" 0.95,
         mkObs "fist" 0.95, mkObs "fist" 0.95, mkObs "fist" 0.95, mkObs "fist" 0.95,
         mkObs "open_palm" 0.9, mkObs "open_palm" 0.9, mkObs "open_palm" 0.9,
         mkObs "open_palm" 0.9]) =
      { window := 8, min_switch := 4, min_conf := 13/20, alpha := 1/4, history := ["fist", "fist", "fist", "fist", "open_palm", "open_palm", "open_palm", "open_palm"], current_label := some "fist", smoothed := some { gesture := "fist", confidence := 4689/5120, hue := 0, launch_power := 0, spark_density := 0, twist := 0, center := (0, 0), handedness := "unknown", spread := 0, pinch_strength := 0, style := "spark" } } := by
    simp only [runUpdates, List.foldl_cons, List.foldl_nil]
    rw [evalStep0, evalStep1, evalStep2, evalStep3, evalStep4, evalStep5, evalStep6,
      evalStep7, evalStep8, evalStep9, evalStep10, evalStep11, evalStep12]
  rw [hchain]
  exact ⟨rfl, by decide⟩

/-- Membership in the post-admission history comes from the old history or
the incoming label. -/
theorem mem_admitHistory (s : SmootherState) (new : GestureResult) (g : String)
    (hmem : g ∈ admitHistory s new) : g ∈ s.history ∨ g = new.gesture := by
  unfold admitHistory at hmem
  by_cases hadm : s.min_conf ≤ new.confidence ∨ new.gesture = "idle"
  · rw [if_pos hadm] at hmem
    exact mem_pushWindow s.window s.history new.gesture g hmem
  · rw [if_neg hadm] at hmem
    exact Or.inl hmem

/-- The label the debounce decision commits is the incoming one, the
previously committed one, or a label of the post-admission history. -/
theorem decideLabel_cases (s : SmootherState) (new : GestureResult) (history : List String) :
    decideLabel s new history = new.gesture ∨
    (∃ cur, s.current_label = some cur ∧ decideLabel s new history = cur) ∨
    decideLabel s new history ∈ history := by
  unfold decideLabel
  cases hcur : s.current_label with
  | none => exact Or.inl rfl
  | some cur =>
    dsimp only
    by_cases heq : new.gesture = cur
    · rw [if_pos heq]
      exact Or.inl rfl
    · rw [if_neg heq]
      by_cases hcand : voteCandidate new.gesture history = cur
      · simp only [hcand, if_pos rfl]
        exact Or.inr (Or.inl ⟨cur, rfl, rfl⟩)
      · rw [if_neg hcand]
        by_cases hcond : s.min_switch ≤ countGet (tally history) (voteCandidate new.gesture history) ∧
            s.min_conf ≤ new.confidence
        · rw [if_pos hcond]
          rcases voteCandidate_mem new.gesture history with hfb | hin
          · exact Or.inl hfb
          · exact Or.inr (Or.inr hin)
        · rw [if_neg hcond]
          exact Or.inr (Or.inl ⟨cur, rfl, rfl⟩)

/-- C9: every call to `update` preserves the smoother's state invariants:
the history never exceeds the window capacity (the oldest entry is evicted
on overflow), all history entries and the committed label stay inside the
classifier's finite label set, and after any update the committed label is
non-null. -/
theorem C9_invariants (s : SmootherState) (new : GestureResult)
    (hlen : s.history.length ≤ s.window)
    (hhist : ∀ g ∈ s.history, g ∈ LabelSet)
    (hcur : ∀ l, s.current_label = some l → l ∈ LabelSet)
    (hnew : new.gesture ∈ LabelSet) :
    (GestureSmoother.update s new).1.history.length ≤ (GestureSmoother.update s new).1.window ∧
    (∀ g ∈ (GestureSmoother.update s new).1.history, g ∈ LabelSet) ∧
    (∃ l, (GestureSmoother.update s new).1.current_label = some l ∧ l ∈ LabelSet) ∧
    (s.history.length = s.window → s.history ≠ [] →
      (s.min_conf ≤ new.confidence ∨ new.gesture = "idle") →
      (GestureSmoother.update s new).1.history = s.history.tail ++ [new.gesture]) := by
  have hwin : (GestureSmoother.update s new).1.window = s.window := rfl
  have hhist2 : (GestureSmoother.update s new).1.history = admitHistory s new := rfl
  have hlab : (GestureSmoother.update s new).1.current_label
      = some (decideLabel s new (admitHistory s new)) := rfl
  refine ⟨?_, ?_, ?_, ?_⟩
  · rw [hwin, hhist2]
    unfold admitHistory
    by_cases hadm : s.min_conf ≤ new.confidence ∨ new.gesture = "idle"
    · rw [if_pos hadm]
      exact pushWindow_length s.window s.history new.gesture hlen
    · rw [if_neg hadm]
      exact hlen
  · rw [hhist2]
    intro g hg
    rcases mem_admitHistory s new g hg with hold | hnewg
    · exact hhist g hold
    · rw [hnewg]
      exact hnew
  · rw [hlab]
    refine ⟨decideLabel s new (admitHistory s new), rfl, ?_⟩
    rcases decideLabel_cases s new (admitHistory s new) with hcase | ⟨cur, hsome, hcase⟩ | hcase
    · rw [hcase]
      exact hnew
    · rw [hcase]
      exact hcur cur hsome
    · rcases mem_admitHistory s new _ hcase with hold | hnewg
      · exact hhist _ hold
      · rw [hnewg]
        exact hnew
  · intro hfull hnonempty hadm
    rw [hhist2]
    unfold admitHistory
    rw [if_pos hadm]
    unfold pushWindow
    have hlen2 : (s.history ++ [new.gesture]).length = s.window + 1 := by
      simp [hfull]
    rw [if_pos (by omega : s.window < (s.history ++ [new.gesture]).length), hlen2]
    have hd1 : s.window + 1 - s.window = 1 := by omega
    rw [hd1, List.drop_append_of_le_length
      (Nat.one_le_iff_ne_zero.mpr (by simpa using hnonempty)), List.drop_one]

/-- C9 witness: the invariants instantiated at a full-window state whose
entries lie in the label set, with a confident "open_palm" observation:
the oldest "fist" entry is evicted and the label stays in the set. -/
theorem C9_invariants_witness :
    (GestureSmoother.update c1WitnessState (mkObs "open_palm" 0.9)).1.history.length ≤
        (GestureSmoother.update c1WitnessState (mkObs "open_palm" 0.9)).1.window ∧
    (∀ g ∈ (GestureSmoother.update c1WitnessState (mkObs "open_palm" 0.9)).1.history,
        g ∈ LabelSet) ∧
    (∃ l, (GestureSmoother.update c1WitnessState (mkObs "open_palm" 0.9)).1.current_label =
        some l ∧ l ∈ LabelSet) ∧
    (c1WitnessState.history.length = c1WitnessState.window →
      c1WitnessState.history ≠ [] →
      (c1WitnessState.min_conf ≤ (mkObs "open_palm" 0.9).confidence ∨
        (mkObs "open_palm" 0.9).gesture = "idle") →
      (GestureSmoother.update c1WitnessState (mkObs "open_palm" 0.9)).1.history =
        c1WitnessState.history.tail ++ [(mkObs "open_palm" 0.9).gesture]) :=
  C9_invariants c1WitnessState (mkObs "open_palm" 0.9) (by decide)
    (by decide) (by decide) (by decide)

/-- Every score of the expression table is nonnegative. -/
theorem scoreSurprised_nonneg (r : FaceFeatures) : 0 ≤ scoreSurprised r := by
  unfold scoreSurprised
  split_ifs with h
  · exact le_min (by norm_num) (by nlinarith [h.1, h.2])
  · norm_num

theorem scoreHappy_nonneg (r : FaceFeatures) : 0 ≤ scoreHappy r := by
  unfold scoreHappy
  split_ifs with h
  · refine le_min (by norm_num) ?_
    have h1 := le_max_left (0.0 : ℚ) r.mouth_angle
    have h2 := le_max_left (0.0 : ℚ) (r.mouth_height - 0.1)
    nlinarith [h.1]
  · norm_num

theorem scoreAngry_nonneg (r : FaceFeatures) : 0 ≤ scoreAngry r := by
  unfold scoreAngry
  split_ifs with h
  · exact le_min (by norm_num) (by nlinarith [h.1, h.2])
  · norm_num

theorem scoreSad_nonneg (r : FaceFeatures) : 0 ≤ scoreSad r := by
  unfold scoreSad
  split_ifs with h
  · refine le_min (by norm_num) ?_
    have h2 := le_max_left (0.0 : ℚ) (0.12 - r.mouth_height)
    nlinarith [h.1]
  · norm_num

theorem scoreNeutral_nonneg (r : FaceFeatures) : 0 ≤ scoreNeutral r := by
  unfold scoreNeutral
  exact le_trans (by norm_num) (le_max_left (0.0 : ℚ) _)

/-- Bound an if-then-else over labelled values by bounding both branches. -/
theorem pair_ite_bound {c : Prop} [Decidable c] {p q : String × ℚ}
    (hp : 0 ≤ p.2 ∧ p.2 ≤ 1) (hq : 0 ≤ q.2 ∧ q.2 ≤ 1) :
    0 ≤ (if c then p else q).2 ∧ (if c then p else q).2 ≤ 1 := by
  by_cases h : c
  · rw [if_pos h]
    exact hp
  · rw [if_neg h]
    exact hq

/-- A value clamped to [0, 1] lies in [0, 1]. -/
theorem clamp01_bound (v : ℚ) : 0 ≤ clamp v 0.0 1.0 ∧ clamp v 0.0 1.0 ≤ 1 := by
  unfold clamp
  constructor
  · exact le_trans (by norm_num) (le_max_left (0.0 : ℚ) _)
  · exact max_le (by norm_num) (le_trans (min_le_right v 1.0) (by norm_num))

/-- The five expression labels of the scoring table. -/
def exprLabels : List String :=
  ["surprised", "happy", "angry", "sad", "neutral"]

/-- C5 counterexample: the gesture classifier's hue can be exactly 360, so
`0 ≤ hue < 360` fails: at the clamped right-edge center x = 1 the default
hue of the catch-all "mixed" gesture is `1 * 360 = 360`. -/
theorem C5_counterexample :
    GestureClassifier.resolveHue "mixed" (1, 0.5) = 360 ∧
    ¬ GestureClassifier.resolveHue "mixed" (1, 0.5) < 360 := by
  have h : GestureClassifier.resolveHue "mixed" (1, 0.5) = (1 : ℚ) * 360.0 := by
    simp [GestureClassifier.resolveHue]
  rw [h]
  norm_num

/-- C5 (amended): every classification yields exactly one label with a
confidence in [0, 1] (the expression scorer's label is one of its five
table entries; the gesture decision chain's confidences are all clamped or
literal values in [0, 1]); the expression mapper's hue always lies in
[0, 360); the gesture classifier's hue lies in [0, 360] for centers in the
unit square — the right endpoint 360 is attained at center.x = 1, so the
strict bound `hue < 360` holds for the mapper but not for the gesture
classifier. -/
theorem C5_output_ranges :
    (∀ r : FaceFeatures, 0 ≤ (classifyExpression r).2 ∧ (classifyExpression r).2 ≤ 1 ∧
      (classifyExpression r).1 ∈ exprLabels ∧ ∃! l, (classifyExpression r).1 = l) ∧
    (∀ f : HandFeatures, 0 ≤ (gestureDecision f).2 ∧ (gestureDecision f).2 ≤ 1) ∧
    (∀ (g : String) (x y : ℚ), 0 ≤ x → x ≤ 1 → 0 ≤ y → y ≤ 1 →
      0 ≤ GestureClassifier.resolveHue g (x, y) ∧
        GestureClassifier.resolveHue g (x, y) ≤ 360) ∧
    (∀ (label : String) (c : ℚ × ℚ) (conf : ℚ),
      0 ≤ (ExpressionMapper.map label c conf).1 ∧
        (ExpressionMapper.map label c conf).1 < 360) := by
  refine ⟨?_, ?_, ?_, ?_⟩
  · intro r
    have h1 : (classifyExpression r).1 =
        (maxPairFirst ("surprised", scoreSurprised r)
          [("happy", scoreHappy r), ("angry", scoreAngry r), ("sad", scoreSad r),
           ("neutral", scoreNeutral r)]).1 := rfl
    have h2 : (classifyExpression r).2 =
        min 1.0 (maxPairFirst ("surprised", scoreSurprised r)
          [("happy", scoreHappy r), ("angry", scoreAngry r), ("sad", scoreSad r),
           ("neutral", scoreNeutral r)]).2 := rfl
    have key : 0 ≤ (maxPairFirst ("surprised", scoreSurprised r)
          [("happy", scoreHappy r), ("angry", scoreAngry r), ("sad", scoreSad r),
           ("neutral", scoreNeutral r)]).2 ∧
        (maxPairFirst ("surprised", scoreSurprised r)
          [("happy", scoreHappy r), ("angry", scoreAngry r), ("sad", scoreSad r),
           ("neutral", scoreNeutral r)]).1 ∈ exprLabels := by
      rcases maxPairFirst_mem ("surprised", scoreSurprised r)
          [("happy", scoreHappy r), ("angry", scoreAngry r), ("sad", scoreSad r),
           ("neutral", scoreNeutral r)] with hb | hb
      · rw [hb]
        exact ⟨scoreSurprised_nonneg r, by simp [exprLabels]⟩
      · simp only [List.mem_cons, List.not_mem_nil, or_false] at hb
        rcases hb with hb | hb | hb | hb
        · rw [hb]
          exact ⟨scoreHappy_nonneg r, by simp [exprLabels]⟩
        · rw [hb]
          exact ⟨scoreAngry_nonneg r, by simp [exprLabels]⟩
        · rw [hb]
          exact ⟨scoreSad_nonneg r, by simp [exprLabels]⟩
        · rw [hb]
          exact ⟨scoreNeutral_nonneg r, by simp [exprLabels]⟩
    refine ⟨?_, ?_, ?_, ?_⟩
    · rw [h2]
      exact le_min (by norm_num) key.1
    · rw [h2]
      exact le_trans (min_le_left _ _) (by norm_num)
    · rw [h1]
      exact key.2
    · exact ⟨(classifyExpression r).1, rfl, fun y hy => hy.symm⟩
  · intro f
    unfold gestureDecision
    exact pair_ite_bound
      (pair_ite_bound (by norm_num) (by norm_num))
      (pair_ite_bound (clamp01_bound _)
        (pair_ite_bound (clamp01_bound _)
          (pair_ite_bound (clamp01_bound _)
            (pair_ite_bound (by norm_num)
              (pair_ite_bound (by norm_num)
                (pair_ite_bound (by norm_num)
                  (pair_ite_bound (by norm_num)
                    (pair_ite_bound (by norm_num)
                      (pair_ite_bound (by norm_num)
                        (pair_ite_bound (by norm_num)
                          (pair_ite_bound (by norm_num)
                            (pair_ite_bound (by norm_num)
                              (pair_ite_bound (by norm_num)
                                (pair_ite_bound (by norm_num)
                                  (pair_ite_bound (by norm_num)
                                    (pair_ite_bound (by norm_num)
                                      (by norm_num)))))))))))))))))
  · intro g x y hx0 hx1 hy0 hy1
    unfold GestureClassifier.resolveHue
    split_ifs <;> constructor <;> nlinarith
  · intro label c conf
    have hhue : (ExpressionMapper.map label c conf).1 =
        qmod (lookupD expBaseHue
          (if memKeys expStyleMap label then label else "neutral") 0 + c.1 * 120.0)
          360.0 := rfl
    rw [hhue]
    exact ⟨qmod_nonneg _ _ (by norm_num),
      lt_of_lt_of_le (qmod_lt _ _ (by norm_num)) (by norm_num)⟩

/-- C5 witness: the range facts instantiated at the all-zero feature
vectors, the "mixed" gesture at the frame center, and the "happy" label. -/
theorem C5_output_ranges_witness :
    (0 ≤ (classifyExpression ⟨0, 0, 0, 0, 0, 0⟩).2 ∧
      (classifyExpression ⟨0, 0, 0, 0, 0, 0⟩).2 ≤ 1 ∧
      (classifyExpression ⟨0, 0, 0, 0, 0, 0⟩).1 ∈ exprLabels ∧
      ∃! l, (classifyExpression ⟨0, 0, 0, 0, 0, 0⟩).1 = l) ∧
    (0 ≤ GestureClassifier.resolveHue "mixed" (0, 0) ∧
      GestureClassifier.resolveHue "mixed" (0, 0) ≤ 360) ∧
    (0 ≤ (ExpressionMapper.map "happy" (0, 0) 1).1 ∧
      (ExpressionMapper.map "happy" (0, 0) 1).1 < 360) :=
  ⟨C5_output_ranges.1 ⟨0, 0, 0, 0, 0, 0⟩,
   C5_output_ranges.2.2.1 "mixed" 0 0 (le_refl 0) zero_le_one (le_refl 0) zero_le_one,
   C5_output_ranges.2.2.2 "happy" (0, 0) 1⟩
